import Mathlib

/-!
Verification of the attestation-scanner repository (two JavaScript source
variants: `src/attestation-scanner.js`, called the "viem variant" below, and
`src/unnamed/part_000`, called the "ethers variant").  The development shallowly
embeds the decode-and-normalize pipeline: hex strings, the ABI payload decoders
of both variants, EIP-55 checksummed addresses (with a full keccak-256), the
subject normalizer, the record assemblers, the explorer batch loop and the
durable sink (JSON + CSV files).
-/

namespace AttScan

/-! ## Byte and hex-string primitives

JavaScript strings are modelled as Lean `String`; byte strings as `List Nat`
with every entry `< 256`. -/

/-- ASCII lower-casing of one character (JS `toLowerCase` on ASCII data). -/
def toLowerChar (c : Char) : Char :=
  if 'A' ≤ c ∧ c ≤ 'Z' then Char.ofNat (c.toNat + 32) else c

/-- Upper-casing of one ASCII lowercase letter (used by the EIP-55 checksum). -/
def toUpperHexChar (c : Char) : Char :=
  if 'a' ≤ c ∧ c ≤ 'z' then Char.ofNat (c.toNat - 32) else c

/-- ASCII lower-casing of a string (JS `String.prototype.toLowerCase`). -/
def toLowerStr (s : String) : String := ⟨s.data.map toLowerChar⟩

/-- Is the character a hexadecimal digit (either case)? -/
def isHexDigitChar (c : Char) : Bool :=
  ('0' ≤ c && c ≤ '9') || ('a' ≤ c && c ≤ 'f') || ('A' ≤ c && c ≤ 'F')

/-- Is the character an uppercase hex letter A-F? -/
def isUpperHexAF (c : Char) : Bool := 'A' ≤ c && c ≤ 'F'

/-- Is the character a lowercase hex letter a-f? -/
def isLowerHexAF (c : Char) : Bool := 'a' ≤ c && c ≤ 'f'

/-- Numeric value of a hex digit. -/
def hexVal (c : Char) : Nat :=
  if c ≤ '9' then c.toNat - 48 else if c ≤ 'F' then c.toNat - 55 else c.toNat - 87

/-- Lowercase hex character of a nibble. -/
def nibbleChar (n : Nat) : Char :=
  if n < 10 then Char.ofNat (48 + n) else Char.ofNat (87 + n)

/-- Lowercase hex rendering of a byte list (without the `0x` prefix). -/
def hexCharsOfBytes : List Nat → List Char
  | [] => []
  | b :: bs => nibbleChar (b / 16 % 16) :: nibbleChar (b % 16) :: hexCharsOfBytes bs

/-- `0x`-prefixed lowercase hex rendering of a byte list (an ethers
`DataHexString`, the form in which decoded `bytes` values reach the JS code). -/
def bytesToHex (bs : List Nat) : String := ⟨'0' :: 'x' :: hexCharsOfBytes bs⟩

/-- Parse pairs of hex digits into bytes; `none` on odd length or a non-hex
character. -/
def hexPairsToBytes : List Char → Option (List Nat)
  | [] => some []
  | [_] => none
  | c1 :: c2 :: rest =>
    if isHexDigitChar c1 && isHexDigitChar c2 then
      (hexPairsToBytes rest).map (fun bs => (hexVal c1 * 16 + hexVal c2) :: bs)
    else none

/-- Parse a `0x`-prefixed hex string into bytes (ethers `arrayify` / viem
`hexToBytes`); `none` when malformed. -/
def hexToBytes (s : String) : Option (List Nat) :=
  match s.data with
  | '0' :: 'x' :: rest => hexPairsToBytes rest
  | _ => none

/-- Big-endian interpretation of a byte list as a natural number. -/
def bytesToNat (bs : List Nat) : Nat := bs.foldl (fun a b => a * 256 + b) 0

/-- Little-endian interpretation of a byte list as a natural number. -/
def bytesToNatLE (bs : List Nat) : Nat := bs.foldr (fun b a => a * 256 + b) 0

/-- Big-endian byte rendering of a natural number into `len` bytes. -/
def natToBytesBE : Nat → Nat → List Nat
  | 0, _ => []
  | l + 1, n => natToBytesBE l (n / 256) ++ [n % 256]

/-- Little-endian byte rendering of a natural number into `len` bytes. -/
def natToBytesLE : Nat → Nat → List Nat
  | 0, _ => []
  | l + 1, n => n % 256 :: natToBytesLE l (n / 256)

/-- Read the 32-byte word of an ABI blob at byte offset `off`, with the ABI
reader's bounds check. -/
def readWordAt (bs : List Nat) (off : Nat) : Option Nat :=
  if off + 32 ≤ bs.length then some (bytesToNat ((bs.drop off).take 32)) else none

/-- Round a byte count up to a multiple of the 32-byte ABI word size. -/
def align32 (n : Nat) : Nat := (n + 31) / 32 * 32

/-! ## Keccak-256

The hash behind EIP-55 checksummed addresses.  Lanes are naturals kept below
`2 ^ 64`; the state is a flat list of 25 lanes indexed `x + 5 * y`. -/

/-- All-ones 64-bit mask. -/
def u64mask : Nat := 18446744073709551615

/-- 64-bit rotate left. -/
def rotl64 (x n : Nat) : Nat := ((x <<< n) ||| (x >>> (64 - n))) &&& u64mask

/-- Rotation offsets of the ρ step, indexed `x + 5 * y`, generated by the
FIPS 202 walk: starting from lane (1, 0), step `t` assigns offset
`(t+1)(t+2)/2 mod 64` and moves to `(y, (2x+3y) mod 5)`; lane (0, 0) keeps
offset 0. -/
def keccakRotc : List Nat :=
  let pairs := (((List.range 24).foldl
    (fun acc t =>
      let x := acc.2.1
      let y := acc.2.2
      ((x + 5 * y, (t + 1) * (t + 2) / 2 % 64) :: acc.1, y, (2 * x + 3 * y) % 5))
    (([] : List (Nat × Nat)), 1, 0)).1)
  (List.range 25).map fun i => (((pairs.find? fun p => p.1 == i).map Prod.snd).getD 0)

/-- One step of the 8-bit LFSR (x^8 + x^6 + x^5 + x^4 + 1) behind the ι round
constants. -/
def keccakLfsrStep (r : Nat) : Nat :=
  if r &&& 0x80 ≠ 0 then ((r <<< 1) ^^^ 0x71) &&& 0xFF else (r <<< 1) &&& 0xFF

/-- The first `n` output bits of the LFSR started at state `r`. -/
def keccakLfsrBits : Nat → Nat → List Bool
  | 0, _ => []
  | n + 1, r => (r &&& 1 == 1) :: keccakLfsrBits n (keccakLfsrStep r)

/-- Round constants of the ι step, generated per FIPS 202: the LFSR's bit
`7 * round + j` lands on bit position `2 ^ j - 1` of the round constant. -/
def keccakRC : List Nat :=
  let bits := keccakLfsrBits 168 1
  (List.range 24).map fun ir =>
    (List.range 7).foldl
      (fun acc j => if bits.getD (7 * ir + j) false then acc ||| (1 <<< (2 ^ j - 1)) else acc)
      0

/-- θ step. -/
def keccakTheta (A : List Nat) : List Nat :=
  let C := (List.range 5).map fun x =>
    A.getD x 0 ^^^ A.getD (x + 5) 0 ^^^ A.getD (x + 10) 0 ^^^
      A.getD (x + 15) 0 ^^^ A.getD (x + 20) 0
  let D := (List.range 5).map fun x =>
    C.getD ((x + 4) % 5) 0 ^^^ rotl64 (C.getD ((x + 1) % 5) 0) 1
  (List.range 25).map fun i => A.getD i 0 ^^^ D.getD (i % 5) 0

/-- Combined ρ and π steps: destination `(x, y)` takes the rotated source lane
`((x + 3 * y) % 5, x)`. -/
def keccakRhoPi (A : List Nat) : List Nat :=
  (List.range 25).map fun d =>
    let x := d % 5
    let y := d / 5
    let s := (x + 3 * y) % 5 + 5 * x
    rotl64 (A.getD s 0) (keccakRotc.getD s 0)

/-- χ step. -/
def keccakChi (B : List Nat) : List Nat :=
  (List.range 25).map fun i =>
    let x := i % 5
    let y := i / 5
    B.getD i 0 ^^^ ((B.getD ((x + 1) % 5 + 5 * y) 0 ^^^ u64mask) &&&
      B.getD ((x + 2) % 5 + 5 * y) 0)

/-- One keccak-f round. -/
def keccakRound (A : List Nat) (rc : Nat) : List Nat :=
  let B := keccakChi (keccakRhoPi (keccakTheta A))
  B.set 0 (B.getD 0 0 ^^^ rc)

/-- The keccak-f[1600] permutation (24 rounds). -/
def keccakF (A : List Nat) : List Nat := keccakRC.foldl keccakRound A

/-- Original keccak padding (`0x01 … 0x80`) for rate 136 bytes. -/
def keccakPad (msg : List Nat) : List Nat :=
  let padLen := 136 - msg.length % 136
  if padLen = 1 then msg ++ [0x81]
  else msg ++ [0x01] ++ List.replicate (padLen - 2) 0 ++ [0x80]

/-- Split a byte list into 136-byte blocks (fuelled structural recursion: each
step consumes at least one byte, so fuel equal to the byte count suffices). -/
def chunks136Aux : Nat → List Nat → List (List Nat)
  | 0, _ => []
  | _, [] => []
  | fuel + 1, b :: bs => ((b :: bs).take 136) :: chunks136Aux fuel ((b :: bs).drop 136)

/-- Split a byte list into 136-byte blocks. -/
def chunks136 (l : List Nat) : List (List Nat) := chunks136Aux l.length l

/-- XOR a 136-byte block into the first 17 lanes and permute. -/
def keccakAbsorb (st : List Nat) (block : List Nat) : List Nat :=
  keccakF ((List.range 25).map fun i =>
    st.getD i 0 ^^^ (if i < 17 then bytesToNatLE ((block.drop (8 * i)).take 8) else 0))

/-- Keccak-256 of a byte list. -/
def keccak256 (msg : List Nat) : List Nat :=
  let final := (chunks136 (keccakPad msg)).foldl keccakAbsorb (List.replicate 25 0)
  ((List.range 4).map fun i => natToBytesLE 8 (final.getD i 0)).flatten

/-! ## EIP-55 checksummed addresses (ethers `getAddress`, viem
`checksumAddress`) -/

/-- Mixed-case the 40 lowercase hex characters of an address according to the
nibbles of the keccak-256 hash of their ASCII rendering. -/
def checksumCase (chars : List Char) (hash : List Nat) : List Char :=
  (List.range chars.length).map fun i =>
    let c := chars.getD i ' '
    let nib := if i % 2 = 0 then hash.getD (i / 2) 0 / 16 else hash.getD (i / 2) 0 % 16
    if 8 ≤ nib then toUpperHexChar c else c

/-- EIP-55 checksummed rendering of a `0x`-prefixed 40-hex-char address
(ethers v5 internal `getChecksumAddress`; viem `checksumAddress` computes the
same function). -/
def getChecksumAddress (s : String) : String :=
  let lower := (s.data.drop 2).map toLowerChar
  let hash := keccak256 (lower.map Char.toNat)
  ⟨'0' :: 'x' :: checksumCase lower hash⟩

/-- Is the char list exactly 40 hex digits? -/
def isHex40 (l : List Char) : Bool := l.length == 40 && l.all isHexDigitChar

/-- ethers v5 `getAddress`: validate a (optionally `0x`-prefixed) 40-hex-digit
address, reject an already-mixed-case input whose case does not match the
checksum, and return the checksummed form.  A thrown error is `none`.
(The ICAP `XE…` branch is not modelled: every input in this pipeline is a
`0x`-prefixed hex rendering of chain bytes.) -/
def getAddress (s : String) : Option String :=
  let body? : Option (List Char) :=
    match s.data with
    | '0' :: 'x' :: rest => if isHex40 rest then some rest else none
    | cs => if isHex40 cs then some cs else none
  match body? with
  | none => none
  | some body =>
    let addr : String := ⟨'0' :: 'x' :: body⟩
    let result := getChecksumAddress addr
    if (body.any isUpperHexAF && body.any isLowerHexAF) && result != addr then none
    else some result

/-! ## UTF-8

ethers v5 `toUtf8String` is strict (every malformed sequence throws); viem
`bytesToString` goes through `TextDecoder`, which replaces malformed sequences
with U+FFFD per the WHATWG algorithm. -/

/-- The replacement character U+FFFD. -/
def replChar : Char := Char.ofNat 0xFFFD

/-- Strict UTF-8 decoding (ethers v5 `toUtf8String` with the default throwing
error handler): rejects bad prefixes, missing or malformed continuations,
overlong forms, surrogates, and out-of-range code points. -/
def utf8DecodeStrict : List Nat → Option (List Char)
  | [] => some []
  | c :: rest =>
    if c < 0x80 then (utf8DecodeStrict rest).map (Char.ofNat c :: ·)
    else if c < 0xC0 then none
    else if c < 0xE0 then
      match rest with
      | c1 :: r =>
        if c1 &&& 0xC0 == 0x80 then
          let v := (c &&& 0x1F) <<< 6 ||| (c1 &&& 0x3F)
          if v < 0x80 then none else (utf8DecodeStrict r).map (Char.ofNat v :: ·)
        else none
      | [] => none
    else if c < 0xF0 then
      match rest with
      | c1 :: c2 :: r =>
        if c1 &&& 0xC0 == 0x80 && c2 &&& 0xC0 == 0x80 then
          let v := (c &&& 0x0F) <<< 12 ||| (c1 &&& 0x3F) <<< 6 ||| (c2 &&& 0x3F)
          if v < 0x800 then none
          else if 0xD800 ≤ v ∧ v ≤ 0xDFFF then none
          else (utf8DecodeStrict r).map (Char.ofNat v :: ·)
        else none
      | _ => none
    else if c < 0xF8 then
      match rest with
      | c1 :: c2 :: c3 :: r =>
        if c1 &&& 0xC0 == 0x80 && c2 &&& 0xC0 == 0x80 && c3 &&& 0xC0 == 0x80 then
          let v := (c &&& 0x07) <<< 18 ||| (c1 &&& 0x3F) <<< 12 |||
            (c2 &&& 0x3F) <<< 6 ||| (c3 &&& 0x3F)
          if v < 0x10000 then none
          else if v > 0x10FFFF then none
          else (utf8DecodeStrict r).map (Char.ofNat v :: ·)
        else none
      | _ => none
    else none

/-- Lenient UTF-8 decoding, fuelled step function: decode one code point (or
emit U+FFFD per the WHATWG rules) and continue on the remaining bytes.  Each
step consumes at least one byte, so fuel equal to the byte count suffices. -/
def utf8DecodeLenientAux : Nat → List Nat → List Char
  | 0, _ => []
  | _, [] => []
  | fuel + 1, c :: rest =>
    if c < 0x80 then Char.ofNat c :: utf8DecodeLenientAux fuel rest
    else if c < 0xC2 then replChar :: utf8DecodeLenientAux fuel rest
    else if c ≤ 0xDF then
      match rest with
      | c1 :: r =>
        if 0x80 ≤ c1 && c1 ≤ 0xBF then
          Char.ofNat ((c - 0xC0) * 64 + (c1 - 0x80)) :: utf8DecodeLenientAux fuel r
        else replChar :: utf8DecodeLenientAux fuel (c1 :: r)
      | [] => [replChar]
    else if c ≤ 0xEF then
      let lo1 := if c = 0xE0 then 0xA0 else 0x80
      let hi1 := if c = 0xED then 0x9F else 0xBF
      match rest with
      | c1 :: r1 =>
        if lo1 ≤ c1 && c1 ≤ hi1 then
          match r1 with
          | c2 :: r2 =>
            if 0x80 ≤ c2 && c2 ≤ 0xBF then
              Char.ofNat ((c - 0xE0) * 4096 + (c1 - 0x80) * 64 + (c2 - 0x80)) ::
                utf8DecodeLenientAux fuel r2
            else replChar :: utf8DecodeLenientAux fuel (c2 :: r2)
          | [] => [replChar]
        else replChar :: utf8DecodeLenientAux fuel (c1 :: r1)
      | [] => [replChar]
    else if c ≤ 0xF4 then
      let lo1 := if c = 0xF0 then 0x90 else 0x80
      let hi1 := if c = 0xF4 then 0x8F else 0xBF
      match rest with
      | c1 :: r1 =>
        if lo1 ≤ c1 && c1 ≤ hi1 then
          match r1 with
          | c2 :: r2 =>
            if 0x80 ≤ c2 && c2 ≤ 0xBF then
              match r2 with
              | c3 :: r3 =>
                if 0x80 ≤ c3 && c3 ≤ 0xBF then
                  Char.ofNat ((c - 0xF0) * 262144 + (c1 - 0x80) * 4096 +
                    (c2 - 0x80) * 64 + (c3 - 0x80)) :: utf8DecodeLenientAux fuel r3
                else replChar :: utf8DecodeLenientAux fuel (c3 :: r3)
              | [] => [replChar]
            else replChar :: utf8DecodeLenientAux fuel (c2 :: r2)
          | [] => [replChar]
        else replChar :: utf8DecodeLenientAux fuel (c1 :: r1)
      | [] => [replChar]
    else replChar :: utf8DecodeLenientAux fuel rest

/-- Lenient UTF-8 decoding (WHATWG TextDecoder, as used by viem): malformed
sequences become U+FFFD and decoding continues at the offending byte. -/
def utf8DecodeLenient (bs : List Nat) : List Char :=
  utf8DecodeLenientAux bs.length bs

/-- UTF-8 encoding of one character. -/
def utf8EncodeChar (c : Char) : List Nat :=
  let v := c.toNat
  if v < 0x80 then [v]
  else if v < 0x800 then [0xC0 + v / 64, 0x80 + v % 64]
  else if v < 0x10000 then [0xE0 + v / 4096, 0x80 + v / 64 % 64, 0x80 + v % 64]
  else [0xF0 + v / 262144, 0x80 + v / 4096 % 64, 0x80 + v / 64 % 64, 0x80 + v % 64]

/-- UTF-8 encoding of a string. -/
def utf8Encode (s : String) : List Nat := (s.data.map utf8EncodeChar).flatten

/-! ## Decimal and timestamp rendering -/

/-- Decimal digits accumulator (fuelled structural recursion: dividing by ten
strictly shrinks a positive number, so fuel equal to the number suffices). -/
def natToStrAux : Nat → Nat → List Char → List Char
  | 0, _, acc => acc
  | fuel + 1, n, acc =>
    if n = 0 then acc else natToStrAux fuel (n / 10) (Char.ofNat (48 + n % 10) :: acc)

/-- Decimal rendering of a natural number (JS number-to-string for integers). -/
def natToStr (n : Nat) : String := if n = 0 then "0" else ⟨natToStrAux n n []⟩

/-- Two-digit zero padding. -/
def pad2 (n : Nat) : String := if n < 10 then "0" ++ natToStr n else natToStr n

/-- Three-digit zero padding. -/
def pad3 (n : Nat) : String :=
  if n < 10 then "00" ++ natToStr n else if n < 100 then "0" ++ natToStr n else natToStr n

/-- `Date.prototype.toISOString` for a non-negative epoch-millisecond value:
`YYYY-MM-DDTHH:mm:ss.sssZ` in the proleptic Gregorian calendar (years up to
9999 rendered with four digits). -/
def toISOString (ms : Nat) : String :=
  let msOfDay := ms % 86400000
  let days := ms / 86400000
  let z := days + 719468
  let era := z / 146097
  let doe := z % 146097
  let yoe := (doe - doe / 1460 + doe / 36524 - doe / 146096) / 365
  let y := yoe + era * 400
  let doy := doe - (365 * yoe + yoe / 4 - yoe / 100)
  let mp := (5 * doy + 2) / 153
  let d := doy - (153 * mp + 2) / 5 + 1
  let m := if mp < 10 then mp + 3 else mp - 9
  let year := if m ≤ 2 then y + 1 else y
  natToStr year ++ "-" ++ pad2 m ++ "-" ++ pad2 d ++ "T" ++
    pad2 (msOfDay / 3600000) ++ ":" ++ pad2 (msOfDay % 3600000 / 60000) ++ ":" ++
    pad2 (msOfDay % 60000 / 1000) ++ "." ++ pad3 (ms % 1000) ++ "Z"

/-! ## The two payload decoders

Both decode the fixed schema `(bool isPositive, string articlePage,
address submitter)` out of `attestationData`.  The viem variant
(`attestation-scanner.js` line 62) decodes a SINGLE dynamic tuple parameter, so
it first reads an offset word pointing at the tuple head; the ethers variant
(`part_000` line 54) decodes THREE top-level parameters, so the tuple head
starts at byte 0. -/

/-- The decoded payload `{isPositive, articlePage, submitter}`; `submitter` is
the checksummed address string both libraries return. -/
structure DecodedPayload where
  isPositive : Bool
  articlePage : String
  submitter : String
deriving DecidableEq, Repr

/-- ethers v5 `defaultAbiCoder.decode(["bool", "string", "address"], data)` on a
byte blob, specialised to this type list.  Head words at 0/32/64: a lenient
boolean (any nonzero word is `true`), an offset to the length-prefixed string
tail (strict word-aligned bounds, strict UTF-8), and an address word that must
fit in 160 bits (`hexZeroPad` throws otherwise) and is checksummed by
`getAddress`.  A thrown error is `none`. -/
def ethersDecodeTriple (bs : List Nat) : Option DecodedPayload := do
  let w0 ← readWordAt bs 0
  let isPositive := w0 != 0
  let w1 ← readWordAt bs 32
  let lw ← readWordAt bs w1
  let _ ← if w1 + 32 + align32 lw ≤ bs.length then some () else none
  let chars ← utf8DecodeStrict ((bs.drop (w1 + 32)).take lw)
  let w2 ← readWordAt bs 64
  let _ ← if w2 < 2 ^ 160 then some () else none
  let submitter ← getAddress (bytesToHex (natToBytesBE 20 w2))
  pure ⟨isPositive, ⟨chars⟩, submitter⟩

/-- viem `decodeAbiParameters` of the single parameter
`(bool isPositive, string articlePage, address submitter)` on a byte blob: the
whole blob must be nonempty and at least one word; the first word is the
offset of the dynamic tuple; the boolean is strict (only 0 or 1); the string
offset is relative to the tuple start and its bytes are decoded leniently; the
address takes the low 20 bytes of its word (no high-byte check) and is
checksummed.  A thrown error is `none`. -/
def viemDecodeTupleParam (bs : List Nat) : Option DecodedPayload := do
  let _ ← if bs.length = 0 then none else some ()
  let _ ← if bs.length < 32 then none else some ()
  let off ← readWordAt bs 0
  let bw ← readWordAt bs off
  let isPositive ← if bw = 0 then some false else if bw = 1 then some true else none
  let so ← readWordAt bs (off + 32)
  let lw ← readWordAt bs (off + so)
  let _ ← if off + so + 32 + lw ≤ bs.length then some () else none
  let articlePage : String := ⟨utf8DecodeLenient ((bs.drop (off + so + 32)).take lw)⟩
  let aw ← readWordAt bs (off + 64)
  let submitter := getChecksumAddress (bytesToHex (natToBytesBE 20 (aw % 2 ^ 160)))
  pure ⟨isPositive, articlePage, submitter⟩

/-- `decodeAttestationData` of the viem variant (`attestation-scanner.js`
lines 52-83): empty input (`""` or `"0x"`) is the defined no-data case; any
decode error is caught and becomes `null`.  The post-processing
(`Boolean(...)`, `?? "N/A"`) is the identity on a successful viem decode. -/
def decodeAttestationDataViem (encodedData : String) : Option DecodedPayload :=
  if encodedData = "" || encodedData = "0x" then none
  else
    match hexToBytes encodedData with
    | none => none
    | some bs => viemDecodeTupleParam bs

/-- `decodeAttestationData` of the ethers variant (`part_000` lines 47-66):
empty input (`""` or `"0x"`) is the defined no-data case; any decode error is
caught and becomes `null`. -/
def decodeAttestationDataEthers (encodedData : String) : Option DecodedPayload :=
  if encodedData = "" || encodedData = "0x" then none
  else
    match hexToBytes encodedData with
    | none => none
    | some bs => ethersDecodeTriple bs

/-! ## Subject normalizer -/

/-- `parseSubjectAsAddress` (`part_000` lines 69-77): a 32-byte subject
(hex string of length 66) keeps its last 20 bytes (40 hex chars); anything
else goes to `getAddress` directly.  A thrown error is `none`. -/
def parseSubjectAsAddress (subjectBytes : String) : Option String :=
  if subjectBytes.length = 66 then
    getAddress ⟨'0' :: 'x' :: subjectBytes.data.drop (subjectBytes.data.length - 40)⟩
  else getAddress subjectBytes

/-! ## Transactions, environment, record assembly

External collaborators (chain provider, call decoder, wall clock) enter the
model as components of an explicit environment; the pipeline itself is the
code under verification. -/

/-- The part of a `getTransaction` result the pipeline reads: `to` (absent for
contract creation) and the raw call data. -/
structure TxData where
  toAddr : Option String
  data : String

/-- The decoded `attest(AttestationPayload, bytes[])` call
(`decoded.args` of `contract.interface.parseTransaction`); `bytes` fields are
hex strings as ethers returns them. -/
structure RawCall where
  schemaId : String
  expirationDate : Nat
  subject : String
  attestationData : String
  validationPayloads : List String

/-- The pipeline environment: the configured contract address (the code
lowercases it at startup, line 13 of both variants), the chain provider
(`getTransaction`, `getBlock(...).timestamp`), the ethers call decoder
(`contract.interface.parseTransaction`, `none` when it cannot decode), and the
wall clock in epoch milliseconds. -/
structure Env where
  contractAddressRaw : String
  getTransaction : String → Option TxData
  parseTx : String → Option RawCall
  getBlockTimestamp : Nat → Nat
  nowMs : Nat

/-- `CONTRACT_ADDRESS = process.env.CONTRACT_ADDRESS.toLowerCase()`. -/
def contractAddr (env : Env) : String := toLowerStr env.contractAddressRaw

/-- Final record of the viem variant (`attestation-scanner.js` lines 173-182). -/
structure AttestationS where
  txHash : String
  blockNumber : Nat
  schemaId : String
  subject : String
  isPositive : Bool
  articlePage : String
  submitter : String
  timestamp : String
deriving DecidableEq, Repr

/-- Final record of the ethers variant (`part_000` lines 155-163); `from` is a
Lean keyword, so the field is `fromAddr`. -/
structure AttestationP where
  txHash : String
  blockNumber : Nat
  fromAddr : String
  timestamp : String
  articlePage : String
  positiveFeedback : Nat
  negativeFeedback : Nat
deriving DecidableEq, Repr

/-- Record assembler of the viem variant: wall-clock timestamp
(`new Date().toISOString()`, line 181). -/
def assembleAttestationViem (txHash : String) (blockNumber : Nat)
    (schemaId subject : String) (d : DecodedPayload) (nowMs : Nat) : AttestationS :=
  { txHash := txHash, blockNumber := blockNumber, schemaId := schemaId,
    subject := subject, isPositive := d.isPositive, articlePage := d.articlePage,
    submitter := d.submitter, timestamp := toISOString nowMs }

/-- Record assembler of the ethers variant: on-chain block timestamp
(`new Date(block.timestamp * 1000).toISOString()`, `part_000` lines 152-163),
plus the boolean split into a `positiveFeedback`/`negativeFeedback` pair. -/
def assembleAttestationEthers (txHash : String) (blockNumber : Nat)
    (d : DecodedPayload) (blockTimestamp : Nat) : AttestationP :=
  { txHash := txHash, blockNumber := blockNumber, fromAddr := d.submitter,
    timestamp := toISOString (blockTimestamp * 1000), articlePage := d.articlePage,
    positiveFeedback := if d.isPositive then 1 else 0,
    negativeFeedback := if d.isPositive then 0 else 1 }

/-! ## Per-transaction pipeline (`decodeAttestation`)

Each variant is modelled as a function returning the produced record (if any)
together with a flag recording whether the Call Decoder's schema-decode step
(`contract.interface.parseTransaction`) was reached.  A caught error is the
`none` record. -/

/-- Payload stage of the viem variant's `decodeAttestation`
(`attestation-scanner.js` lines 155-187): decode `attestationData`, normalize
the subject by `ethers.utils.getAddress` directly (line 177), assemble and
return the record; any failure means no record. -/
def viemPayloadStage (env : Env) (txHash : String) (blockNumber : Nat)
    (rc : RawCall) : Option AttestationS :=
  match decodeAttestationDataViem rc.attestationData with
  | none => none
  | some d =>
    match getAddress rc.subject with
    | none => none
    | some subj =>
      some (assembleAttestationViem txHash blockNumber rc.schemaId subj d env.nowMs)

/-- `decodeAttestation` of the viem variant, full control flow (lines 120-192):
fetch the transaction, require a matching `to` and nonempty call data, run the
call decoder, then the payload stage. -/
def decodeAttestationViem (env : Env) (txHash : String) (blockNumber : Nat) :
    Option AttestationS × Bool :=
  match env.getTransaction txHash with
  | none => (none, false)
  | some tx =>
    let toMatches := match tx.toAddr with
      | some a => toLowerStr a == contractAddr env
      | none => false
    if !toMatches then (none, false)
    else if tx.data = "" || tx.data = "0x" then (none, false)
    else
      match env.parseTx tx.data with
      | none => (none, true)
      | some rc => (viemPayloadStage env txHash blockNumber rc, true)

/-- Payload stage of the ethers variant's `decodeAttestation`
(`part_000` lines 136-167): decode `attestationData`, normalize the subject by
`parseSubjectAsAddress`, fetch the containing block's timestamp, assemble and
return the record; any failure means no record. -/
def ethersPayloadStage (env : Env) (txHash : String) (blockNumber : Nat)
    (rc : RawCall) : Option AttestationP :=
  match decodeAttestationDataEthers rc.attestationData with
  | none => none
  | some d =>
    match parseSubjectAsAddress rc.subject with
    | none => none
    | some _subj =>
      some (assembleAttestationEthers txHash blockNumber d
        (env.getBlockTimestamp blockNumber))

/-- `decodeAttestation` of the ethers variant, full control flow
(`part_000` lines 105-171). -/
def decodeAttestationEthers (env : Env) (txHash : String) (blockNumber : Nat) :
    Option AttestationP × Bool :=
  match env.getTransaction txHash with
  | none => (none, false)
  | some tx =>
    let toMatches := match tx.toAddr with
      | some a => toLowerStr a == contractAddr env
      | none => false
    if !toMatches then (none, false)
    else if tx.data = "" || tx.data = "0x" then (none, false)
    else
      match env.parseTx tx.data with
      | none => (none, true)
      | some rc => (ethersPayloadStage env txHash blockNumber rc, true)

/-! ## Explorer batch fetch (`fetchTransactionsFromExplorer`) -/

/-- One item of the explorer result list (fields the loop reads). -/
structure ExplorerTx where
  hash : String
  toAddr : String
  blockNumber : Nat

/-- The explorer API response shape `{status, message, result}`. -/
structure ExplorerResponse where
  status : String
  message : String
  result : List ExplorerTx

/-- Historical fetch of the viem variant (`attestation-scanner.js`
lines 196-215): abort on a non-"1" status, otherwise run `decodeAttestation`
for every item addressed to the contract.  Returns the produced records in
order together with the list of items the per-item loop visited. -/
def fetchTransactionsFromExplorerViem (env : Env) (resp : ExplorerResponse) :
    List AttestationS × List String :=
  if resp.status != "1" then ([], [])
  else
    ((resp.result.filter fun t => toLowerStr t.toAddr == contractAddr env).filterMap
        fun t => (decodeAttestationViem env t.hash t.blockNumber).1,
      resp.result.map fun t => t.hash)

/-- Historical fetch of the ethers variant (`part_000` lines 174-191): the same
control flow. -/
def fetchTransactionsFromExplorerEthers (env : Env) (resp : ExplorerResponse) :
    List AttestationP × List String :=
  if resp.status != "1" then ([], [])
  else
    ((resp.result.filter fun t => toLowerStr t.toAddr == contractAddr env).filterMap
        fun t => (decodeAttestationEthers env t.hash t.blockNumber).1,
      resp.result.map fun t => t.hash)

/-! ## Durable sink

The two output files: `attestations.json` is modelled as the list of chunks
appended by `appendFileSync` (its content is their concatenation, its entry
count their number), `attestations.csv` as its content string. -/

/-- State of the two output files. -/
structure SinkState where
  jsonChunks : List String
  csvContent : String
deriving DecidableEq, Repr

/-- CSV header row of the viem variant (`attestation-scanner.js` line 91). -/
def csvHeaderViem : String :=
  "txHash,blockNumber,schemaId,subject,isPositive,articlePage,submitter,timestamp\n"

/-- CSV header row of the ethers variant (`part_000` line 84). -/
def csvHeaderEthers : String :=
  "txHash,blockNumber,from,timestamp,articlePage,positiveFeedback,negativeFeedback\n"

/-- `initializeFiles` of the viem variant: `writeFileSync` truncates both files,
discarding whatever state they had. -/
def initializeFilesViem (_prev : SinkState) : SinkState :=
  { jsonChunks := [], csvContent := csvHeaderViem }

/-- `initializeFiles` of the ethers variant. -/
def initializeFilesEthers (_prev : SinkState) : SinkState :=
  { jsonChunks := [], csvContent := csvHeaderEthers }

/-- JSON string escaping of one character (`JSON.stringify`). -/
def jsonEscapeChar (c : Char) : List Char :=
  if c = '"' then ['\\', '"']
  else if c = '\\' then ['\\', '\\']
  else if c = '\n' then ['\\', 'n']
  else if c = '\r' then ['\\', 'r']
  else if c = '\t' then ['\\', 't']
  else if c.toNat = 8 then ['\\', 'b']
  else if c.toNat = 12 then ['\\', 'f']
  else if c.toNat < 32 then
    ['\\', 'u', '0', '0', nibbleChar (c.toNat / 16), nibbleChar (c.toNat % 16)]
  else [c]

/-- JSON rendering of a string value. -/
def jsonStr (s : String) : String := "\"" ++ ⟨(s.data.map jsonEscapeChar).flatten⟩ ++ "\""

/-- `JSON.stringify(attestation, null, 2)` for the viem variant's record. -/
def jsonStringifyViem (a : AttestationS) : String :=
  "\x7b\n  \"txHash\": " ++ jsonStr a.txHash ++
    ",\n  \"blockNumber\": " ++ natToStr a.blockNumber ++
    ",\n  \"schemaId\": " ++ jsonStr a.schemaId ++
    ",\n  \"subject\": " ++ jsonStr a.subject ++
    ",\n  \"isPositive\": " ++ (if a.isPositive then "true" else "false") ++
    ",\n  \"articlePage\": " ++ jsonStr a.articlePage ++
    ",\n  \"submitter\": " ++ jsonStr a.submitter ++
    ",\n  \"timestamp\": " ++ jsonStr a.timestamp ++ "\n\x7d"

/-- `JSON.stringify(attestation, null, 2)` for the ethers variant's record. -/
def jsonStringifyEthers (a : AttestationP) : String :=
  "\x7b\n  \"txHash\": " ++ jsonStr a.txHash ++
    ",\n  \"blockNumber\": " ++ natToStr a.blockNumber ++
    ",\n  \"from\": " ++ jsonStr a.fromAddr ++
    ",\n  \"timestamp\": " ++ jsonStr a.timestamp ++
    ",\n  \"articlePage\": " ++ jsonStr a.articlePage ++
    ",\n  \"positiveFeedback\": " ++ natToStr a.positiveFeedback ++
    ",\n  \"negativeFeedback\": " ++ natToStr a.negativeFeedback ++ "\n\x7d"

/-- `saveToJSON` of the viem variant: append one stringified record plus a
newline. -/
def saveToJSONViem (st : SinkState) (a : AttestationS) : SinkState :=
  { st with jsonChunks := st.jsonChunks ++ [jsonStringifyViem a ++ "\n"] }

/-- `saveToJSON` of the ethers variant. -/
def saveToJSONEthers (st : SinkState) (a : AttestationP) : SinkState :=
  { st with jsonChunks := st.jsonChunks ++ [jsonStringifyEthers a ++ "\n"] }

/-- CSV line of the viem variant (`attestation-scanner.js` line 110). -/
def csvLineViem (a : AttestationS) : String :=
  a.txHash ++ "," ++ natToStr a.blockNumber ++ "," ++ a.schemaId ++ "," ++
    a.subject ++ "," ++ (if a.isPositive then "true" else "false") ++ "," ++
    a.articlePage ++ "," ++ a.submitter ++ "," ++ a.timestamp ++ "\n"

/-- CSV line of the ethers variant (`part_000` line 100). -/
def csvLineEthers (a : AttestationP) : String :=
  a.txHash ++ "," ++ natToStr a.blockNumber ++ "," ++ a.fromAddr ++ "," ++
    a.timestamp ++ "," ++ a.articlePage ++ "," ++ natToStr a.positiveFeedback ++
    "," ++ natToStr a.negativeFeedback ++ "\n"

/-- `saveToCSV` of the viem variant: append one line. -/
def saveToCSVViem (st : SinkState) (a : AttestationS) : SinkState :=
  { st with csvContent := st.csvContent ++ csvLineViem a }

/-- `saveToCSV` of the ethers variant. -/
def saveToCSVEthers (st : SinkState) (a : AttestationP) : SinkState :=
  { st with csvContent := st.csvContent ++ csvLineEthers a }

/-- Persist one assembled record (both variants call `saveToJSON` then
`saveToCSV`). -/
def persistViem (st : SinkState) (a : AttestationS) : SinkState :=
  saveToCSVViem (saveToJSONViem st a) a

/-- Persist one assembled record, ethers variant. -/
def persistEthers (st : SinkState) (a : AttestationP) : SinkState :=
  saveToCSVEthers (saveToJSONEthers st a) a

/-- Startup sequence of the viem variant (lines 232-240): re-initialize the
sink, then append every produced record in order. -/
def startupViem (prev : SinkState) (recs : List AttestationS) : SinkState :=
  recs.foldl persistViem (initializeFilesViem prev)

/-- Startup sequence of the ethers variant (`part_000` lines 207-216). -/
def startupEthers (prev : SinkState) (recs : List AttestationP) : SinkState :=
  recs.foldl persistEthers (initializeFilesEthers prev)

/-- Number of newline characters (= number of rows, every appended row being
newline-terminated). -/
def countRows (s : String) : Nat := s.data.count '\n'

/-! ## Payload encoder (for the round-trip property) -/

/-- Modelled from the spec: the canonical ABI head/tail encoding (spec §4.2 and
glossary) of the fixed payload schema `(bool isPositive, string articlePage,
address submitter)` as three top-level parameters — the repository contains
only the decoders, no encoder.  Head: boolean word, offset word (96) to the
string tail, address word; tail: length word followed by zero-padded UTF-8
bytes. -/
def encodeAttestationTriple (isPositive : Bool) (articlePage : String)
    (submitter : Nat) : List Nat :=
  let sb := utf8Encode articlePage
  natToBytesBE 32 (if isPositive then 1 else 0) ++ natToBytesBE 32 96 ++
    natToBytesBE 32 submitter ++ natToBytesBE 32 sb.length ++ sb ++
    List.replicate (align32 sb.length - sb.length) 0

/-- Modelled from the spec: the same triple encoded as ONE tuple parameter
(the layout the viem variant's schema declares) — the head is a single offset
word (32) pointing at the tuple encoding. -/
def encodeAttestationTupleParam (isPositive : Bool) (articlePage : String)
    (submitter : Nat) : List Nat :=
  natToBytesBE 32 32 ++ encodeAttestationTriple isPositive articlePage submitter

/-! ## Helper lemmas -/

/-- Unfolding of string concatenation to character-list concatenation. -/
theorem strData_append (s t : String) : (s ++ t).data = s.data ++ t.data := by
  cases s; cases t; rfl

/-- A string built from a character list has that list as its data. -/
theorem strData_mk (l : List Char) : (String.mk l).data = l := rfl

/-- Length of a string built from a character list. -/
theorem strLength_mk (l : List Char) : (String.mk l).length = l.length := rfl

/-- Hex rendering doubles the length. -/
theorem hexCharsOfBytes_length (bs : List Nat) :
    (hexCharsOfBytes bs).length = 2 * bs.length := by
  induction bs with
  | nil => rfl
  | cons b bs ih => simp [hexCharsOfBytes, ih]; omega

/-- Hex rendering distributes over concatenation. -/
theorem hexCharsOfBytes_append (a b : List Nat) :
    hexCharsOfBytes (a ++ b) = hexCharsOfBytes a ++ hexCharsOfBytes b := by
  induction a with
  | nil => rfl
  | cons x xs ih => simp [hexCharsOfBytes, ih]

/-- A nibble renders to a lowercase hex digit. -/
theorem nibbleChar_lower_hex (k : Nat) (hk : k < 16) :
    isHexDigitChar (nibbleChar k) = true ∧ isUpperHexAF (nibbleChar k) = false := by
  interval_cases k <;> exact ⟨by decide, by decide⟩

/-- Every character of a hex rendering is a hex digit and none is uppercase. -/
theorem hexCharsOfBytes_chars (bs : List Nat) :
    ∀ c ∈ hexCharsOfBytes bs, isHexDigitChar c = true ∧ isUpperHexAF c = false := by
  induction bs with
  | nil => intro c hc; cases hc
  | cons b bs ih =>
    intro c hc
    simp only [hexCharsOfBytes, List.mem_cons] at hc
    rcases hc with h | h | h
    · exact h ▸ nibbleChar_lower_hex _ (Nat.mod_lt _ (by omega))
    · exact h ▸ nibbleChar_lower_hex _ (Nat.mod_lt _ (by omega))
    · exact ih c h

/-- `getAddress` succeeds, returning the checksummed form, on any
`0x`-prefixed 40-hex-character string with no uppercase letter. -/
theorem getAddress_lower_hex40 (body : List Char)
    (hlen : body.length = 40)
    (hhex : ∀ c ∈ body, isHexDigitChar c = true)
    (hlow : ∀ c ∈ body, isUpperHexAF c = false) :
    getAddress ⟨'0' :: 'x' :: body⟩ =
      some (getChecksumAddress ⟨'0' :: 'x' :: body⟩) := by
  have h40 : isHex40 body = true := by
    simp [isHex40, hlen, List.all_eq_true]
    intro c hc; exact hhex c hc
  have hany : body.any isUpperHexAF = false := by
    simp [List.any_eq_false]
    intro c hc; exact hlow c hc
  simp [getAddress, h40, hany]

/-- Apply `getAddress_lower_hex40` to the hex rendering of a 20-byte value. -/
theorem getAddress_bytesToHex20 (bs : List Nat) (h20 : bs.length = 20) :
    getAddress (bytesToHex bs) = some (getChecksumAddress (bytesToHex bs)) := by
  have hlen : (hexCharsOfBytes bs).length = 40 := by rw [hexCharsOfBytes_length, h20]
  exact getAddress_lower_hex40 _ hlen
    (fun c hc => (hexCharsOfBytes_chars bs c hc).1)
    (fun c hc => (hexCharsOfBytes_chars bs c hc).2)

/-! ## Claim theorems -/

/-- C1: For every raw subject byte string, the Subject Normalizer
(`parseSubjectAsAddress`) returns a 20-byte subject as its checksummed address,
returns for a 32-byte subject the checksummed address of its last 20 bytes,
and in particular normalizing a 32-byte left-zero-padded subject yields the
same checksummed address as normalizing the literal 20-byte value, for every
address value. -/
theorem parseSubjectAsAddress_normalizes :
    (∀ bs : List Nat, bs.length = 20 →
      parseSubjectAsAddress (bytesToHex bs) =
        some (getChecksumAddress (bytesToHex bs))) ∧
    (∀ bs : List Nat, bs.length = 32 →
      parseSubjectAsAddress (bytesToHex bs) =
        some (getChecksumAddress (bytesToHex (bs.drop 12)))) ∧
    (∀ addr : List Nat, addr.length = 20 →
      parseSubjectAsAddress (bytesToHex (List.replicate 12 0 ++ addr)) =
        parseSubjectAsAddress (bytesToHex addr)) := by
  have len_hex : ∀ bs : List Nat, (bytesToHex bs).length = 2 + 2 * bs.length := by
    intro bs
    show ('0' :: 'x' :: hexCharsOfBytes bs).length = 2 + 2 * bs.length
    simp [hexCharsOfBytes_length]; omega
  have part1 : ∀ bs : List Nat, bs.length = 20 →
      parseSubjectAsAddress (bytesToHex bs) =
        some (getChecksumAddress (bytesToHex bs)) := by
    intro bs h20
    have hne : (bytesToHex bs).length ≠ 66 := by rw [len_hex, h20]; omega
    rw [parseSubjectAsAddress, if_neg hne]
    exact getAddress_bytesToHex20 bs h20
  have part2 : ∀ bs : List Nat, bs.length = 32 →
      parseSubjectAsAddress (bytesToHex bs) =
        some (getChecksumAddress (bytesToHex (bs.drop 12))) := by
    intro bs h32
    have h66 : (bytesToHex bs).length = 66 := by rw [len_hex, h32]
    rw [parseSubjectAsAddress, if_pos h66]
    have hsplit : bs = bs.take 12 ++ bs.drop 12 := (List.take_append_drop 12 bs).symm
    have hdata : (bytesToHex bs).data = '0' :: 'x' :: hexCharsOfBytes bs := rfl
    have hdrop :
        (bytesToHex bs).data.drop ((bytesToHex bs).data.length - 40) =
          hexCharsOfBytes (bs.drop 12) := by
      rw [hdata]
      have hlen : ('0' :: 'x' :: hexCharsOfBytes bs).length = 66 := by
        simp [hexCharsOfBytes_length, h32]
      rw [hlen]
      show ('0' :: 'x' :: hexCharsOfBytes bs).drop 26 = hexCharsOfBytes (bs.drop 12)
      have : hexCharsOfBytes bs =
          hexCharsOfBytes (bs.take 12) ++ hexCharsOfBytes (bs.drop 12) := by
        conv_lhs => rw [hsplit]
        exact hexCharsOfBytes_append _ _
      rw [this]
      have htk : (hexCharsOfBytes (bs.take 12)).length = 24 := by
        rw [hexCharsOfBytes_length]
        simp [List.length_take, h32]
      show (hexCharsOfBytes (bs.take 12) ++ hexCharsOfBytes (bs.drop 12)).drop 24 =
        hexCharsOfBytes (bs.drop 12)
      have h24 : (24 : Nat) = (hexCharsOfBytes (bs.take 12)).length := htk.symm
      rw [h24, List.drop_left]
    rw [hdrop]
    have hd20 : (bs.drop 12).length = 20 := by simp [h32]
    have hlen40 : (hexCharsOfBytes (bs.drop 12)).length = 40 := by
      rw [hexCharsOfBytes_length, hd20]
    exact getAddress_lower_hex40 _ hlen40
      (fun c hc => (hexCharsOfBytes_chars _ c hc).1)
      (fun c hc => (hexCharsOfBytes_chars _ c hc).2)
  refine ⟨part1, part2, ?_⟩
  intro addr h20
  have h32 : (List.replicate 12 0 ++ addr).length = 32 := by simp [h20]
  rw [part2 _ h32, part1 _ h20]
  have : (List.replicate (n := 12) (0 : Nat) ++ addr).drop 12 = addr := by
    have h12 : (List.replicate (n := 12) (0 : Nat)).length = 12 := by simp
    conv_lhs => rw [show (12 : Nat) = (List.replicate (n := 12) (0 : Nat)).length from h12.symm]
    exact List.drop_left _ _
  rw [this]

/-- C1 witness: the Subject Normalizer at the spec example address
`0xAbCdEf0123456789AbCdEf0123456789AbCdEf01`, supplied both as the literal
20-byte value and as the 32-byte left-zero-padded value. -/
theorem parseSubjectAsAddress_normalizes_witness :
    parseSubjectAsAddress (bytesToHex
        [0xab, 0xcd, 0xef, 0x01, 0x23, 0x45, 0x67, 0x89, 0xab, 0xcd,
         0xef, 0x01, 0x23, 0x45, 0x67, 0x89, 0xab, 0xcd, 0xef, 0x01]) =
      some (getChecksumAddress (bytesToHex
        [0xab, 0xcd, 0xef, 0x01, 0x23, 0x45, 0x67, 0x89, 0xab, 0xcd,
         0xef, 0x01, 0x23, 0x45, 0x67, 0x89, 0xab, 0xcd, 0xef, 0x01])) ∧
    parseSubjectAsAddress (bytesToHex (List.replicate 12 0 ++
        [0xab, 0xcd, 0xef, 0x01, 0x23, 0x45, 0x67, 0x89, 0xab, 0xcd,
         0xef, 0x01, 0x23, 0x45, 0x67, 0x89, 0xab, 0xcd, 0xef, 0x01])) =
      parseSubjectAsAddress (bytesToHex
        [0xab, 0xcd, 0xef, 0x01, 0x23, 0x45, 0x67, 0x89, 0xab, 0xcd,
         0xef, 0x01, 0x23, 0x45, 0x67, 0x89, 0xab, 0xcd, 0xef, 0x01]) :=
  ⟨parseSubjectAsAddress_normalizes.1 _ (by decide),
   parseSubjectAsAddress_normalizes.2.2 _ (by decide)⟩

/-- The spec's example submitter address `0xAAAA...AAAA` (20 bytes of `0xAA`)
as a number. -/
def exampleSubmitter : Nat := 0xaaaaaaaaaaaaaaaaaaaaaaaaaaaaaaaaaaaaaaaa

/-- The flat three-top-level-parameter encoding of
`(true, "page-3", 0xAAAA...AAAA)` — the layout the ethers variant's type list
`["bool", "string", "address"]` describes. -/
def flatPayloadHex : String :=
  bytesToHex (encodeAttestationTriple true "page-3" exampleSubmitter)

/-- The single-tuple-parameter encoding of the same triple — the layout the
viem variant's schema `(bool, string, address)` describes. -/
def tuplePayloadHex : String :=
  bytesToHex (encodeAttestationTupleParam true "page-3" exampleSubmitter)

/-- A truncated-tail payload: the flat encoding cut to 131 bytes, so the string
tail holds only 3 of the 6 bytes its length prefix declares. -/
def truncatedTailHex : String :=
  bytesToHex ((encodeAttestationTriple true "page-3" exampleSubmitter).take 131)

set_option maxRecDepth 1000000 in
/-- C2 counterexample: the two variants' payload decoders are NOT extensionally
equal — on the flat three-parameter encoding of `(true, "page-3",
0xAAAA...AAAA)` the ethers variant succeeds while the viem variant (which
expects an extra offset-indirection word before the tuple head) throws on a
non-boolean word and yields `null`. -/
theorem decodeAttestationData_variants_agree_refuted :
    ¬ ∀ d : String, decodeAttestationDataViem d = decodeAttestationDataEthers d := by
  intro h
  have h1 : (decodeAttestationDataViem flatPayloadHex).isSome = false := rfl
  have h2 : (decodeAttestationDataEthers flatPayloadHex).isSome = true := rfl
  rw [h flatPayloadHex, h2] at h1
  exact absurd h1 (by decide)

set_option maxRecDepth 1000000 in
/-- C2 (amended): the two variants' payload decoders are not extensionally
equal: there is an `attestationData` byte string — the flat three-top-level-
parameter encoding of a valid triple — that the ethers variant decodes to a
triple while the viem tuple variant rejects it (returns the `null` failure). -/
theorem decodeAttestationData_variants_differ :
    ∃ d : String, decodeAttestationDataViem d = none ∧
      (decodeAttestationDataEthers d).isSome = true :=
  ⟨flatPayloadHex, rfl, rfl⟩

/-- C4: For the empty `attestationData` input — the empty string or the
canonical zero-length marker `"0x"` — both variants' payload decoders return
the defined no-data result `null` (the early-return branch, so no error is
thrown). -/
theorem decodeAttestationData_empty_noData :
    decodeAttestationDataViem "" = none ∧ decodeAttestationDataViem "0x" = none ∧
    decodeAttestationDataEthers "" = none ∧ decodeAttestationDataEthers "0x" = none :=
  ⟨rfl, rfl, rfl, rfl⟩

set_option maxRecDepth 1000000 in
/-- C10: Round-trip — encoding the triple `(isPositive := true,
articlePage := "page-3", submitter := 0xAAAA...AAAA)` with the fixed payload
schema and decoding it back with the Payload Decoder reproduces the identical
triple (the submitter in its EIP-55 checksummed rendering, whose lowercase
form is exactly the encoded 20-byte value), for each variant's layout of the
fixed schema. -/
theorem decodeAttestationData_roundtrip :
    decodeAttestationDataEthers flatPayloadHex =
      some { isPositive := true, articlePage := "page-3",
             submitter := "0xaAaAaAaaAaAaAaaAaAAAAAAAAaaaAaAaAaaAaaAa" } ∧
    decodeAttestationDataViem tuplePayloadHex =
      some { isPositive := true, articlePage := "page-3",
             submitter := "0xaAaAaAaaAaAaAaaAaAAAAAAAAaaaAaAaAaaAaaAa" } ∧
    toLowerStr "0xaAaAaAaaAaAaAaaAaAAAAAAAAaaaAaAaAaaAaaAa" =
      bytesToHex (natToBytesBE 20 exampleSubmitter) :=
  ⟨by decide, by decide, by decide⟩

/-- C7: For every explorer response whose status field is not "1", the entire
historical fetch is aborted: no records are produced and the per-item loop
never begins (the visited-item list is empty), in both variants. -/
theorem explorerError_aborts (env : Env) (resp : ExplorerResponse)
    (h : resp.status ≠ "1") :
    fetchTransactionsFromExplorerViem env resp = ([], []) ∧
    fetchTransactionsFromExplorerEthers env resp = ([], []) := by
  have hb : (resp.status != "1") = true := bne_iff_ne.mpr h
  exact ⟨by simp [fetchTransactionsFromExplorerViem, hb],
    by simp [fetchTransactionsFromExplorerEthers, hb]⟩

/-- A concrete environment for witnesses: contract address `0xAA`, no known
transactions or calls. -/
def witEnvEmpty : Env :=
  { contractAddressRaw := "0xAA", getTransaction := fun _ => none,
    parseTx := fun _ => none, getBlockTimestamp := fun _ => 0, nowMs := 0 }

/-- C7 witness: a status-"0" response whose result list is nonempty (and whose
single item is addressed to the contract) produces no records and its items
are never visited. -/
theorem explorerError_aborts_witness :
    fetchTransactionsFromExplorerViem witEnvEmpty
        { status := "0", message := "NOTOK",
          result := [{ hash := "0xabc", toAddr := "0xAA", blockNumber := 5 }] } =
      ([], []) ∧
    fetchTransactionsFromExplorerEthers witEnvEmpty
        { status := "0", message := "NOTOK",
          result := [{ hash := "0xabc", toAddr := "0xAA", blockNumber := 5 }] } =
      ([], []) :=
  explorerError_aborts witEnvEmpty _ (by decide)

/-- C6: A transaction whose `to` field does not equal the target contract
address under case-insensitive comparison (including an absent `to`) is
dropped before the Call Decoder runs: both variants return no record and the
schema-decode flag stays `false`. -/
theorem toMismatch_skipped (env : Env) (txHash : String) (bn : Nat) (tx : TxData)
    (hget : env.getTransaction txHash = some tx)
    (hmm : tx.toAddr.map toLowerStr ≠ some (contractAddr env)) :
    decodeAttestationViem env txHash bn = (none, false) ∧
    decodeAttestationEthers env txHash bn = (none, false) := by
  cases hta : tx.toAddr with
  | none =>
    exact ⟨by simp [decodeAttestationViem, hget, hta],
      by simp [decodeAttestationEthers, hget, hta]⟩
  | some a =>
    rw [hta] at hmm
    simp only [Option.map_some'] at hmm
    have hbeq : (toLowerStr a == contractAddr env) = false :=
      beq_eq_false_iff_ne.mpr fun hEq => hmm (congrArg some hEq)
    exact ⟨by simp [decodeAttestationViem, hget, hta, hbeq],
      by simp [decodeAttestationEthers, hget, hta, hbeq]⟩

/-- The mismatching transaction of the C6 witness: addressed to `0xBB`. -/
def witTxMismatch : TxData := { toAddr := some "0xBB", data := "0xdeadbeef" }

/-- C6 witness environment: one known transaction, addressed to `0xBB` while
the configured contract is `0xAA`. -/
def witEnvMismatch : Env :=
  { contractAddressRaw := "0xAA",
    getTransaction := fun h => if h = "0xh1" then some witTxMismatch else none,
    parseTx := fun _ => none, getBlockTimestamp := fun _ => 0, nowMs := 0 }

/-- C6 witness: the concrete mismatching transaction is dropped with the
schema-decode step never reached, in both variants. -/
theorem toMismatch_skipped_witness :
    decodeAttestationViem witEnvMismatch "0xh1" 7 = (none, false) ∧
    decodeAttestationEthers witEnvMismatch "0xh1" 7 = (none, false) :=
  toMismatch_skipped witEnvMismatch "0xh1" 7 witTxMismatch rfl (by decide)

/-- C9: The Record Assembler's timestamp is the wall clock at decode in the
viem variant and the containing block's on-chain timestamp in the ethers
variant — both at the assembler level and through the full per-transaction
pipeline — and consequently the two assemblers disagree on the timestamp field
for some input. -/
theorem timestamp_variants :
    (∀ (txHash schemaId subject : String) (bn nowMs : Nat) (d : DecodedPayload),
      (assembleAttestationViem txHash bn schemaId subject d nowMs).timestamp =
        toISOString nowMs) ∧
    (∀ (txHash : String) (bn blockTs : Nat) (d : DecodedPayload),
      (assembleAttestationEthers txHash bn d blockTs).timestamp =
        toISOString (blockTs * 1000)) ∧
    (∀ (env : Env) (txh : String) (bn : Nat),
      ((decodeAttestationViem env txh bn).1.map fun r => r.timestamp) =
        ((decodeAttestationViem env txh bn).1.map fun _ => toISOString env.nowMs)) ∧
    (∀ (env : Env) (txh : String) (bn : Nat),
      ((decodeAttestationEthers env txh bn).1.map fun r => r.timestamp) =
        ((decodeAttestationEthers env txh bn).1.map fun _ =>
          toISOString (env.getBlockTimestamp bn * 1000))) ∧
    (assembleAttestationViem "0xt" 1 "0xs" "0xa"
        { isPositive := true, articlePage := "p", submitter := "0xu" } 0).timestamp ≠
      (assembleAttestationEthers "0xt" 1
        { isPositive := true, articlePage := "p", submitter := "0xu" } 86400).timestamp := by
  have hstageV : ∀ (env : Env) (txh : String) (bn : Nat) (rc : RawCall),
      ((viemPayloadStage env txh bn rc).map fun r => r.timestamp) =
        ((viemPayloadStage env txh bn rc).map fun _ => toISOString env.nowMs) := by
    intro env txh bn rc
    simp only [viemPayloadStage]
    generalize decodeAttestationDataViem rc.attestationData = o1
    generalize getAddress rc.subject = o2
    cases o1 with
    | none => rw [Option.map_none', Option.map_none']
    | some d =>
      cases o2 with
      | none => rw [Option.map_none', Option.map_none']
      | some subj => rw [Option.map_some', Option.map_some']; rfl
  have hstageE : ∀ (env : Env) (txh : String) (bn : Nat) (rc : RawCall),
      ((ethersPayloadStage env txh bn rc).map fun r => r.timestamp) =
        ((ethersPayloadStage env txh bn rc).map fun _ =>
          toISOString (env.getBlockTimestamp bn * 1000)) := by
    intro env txh bn rc
    simp only [ethersPayloadStage]
    generalize decodeAttestationDataEthers rc.attestationData = o1
    generalize parseSubjectAsAddress rc.subject = o2
    cases o1 with
    | none => rw [Option.map_none', Option.map_none']
    | some d =>
      cases o2 with
      | none => rw [Option.map_none', Option.map_none']
      | some subj => rw [Option.map_some', Option.map_some']; rfl
  refine ⟨fun _ _ _ _ _ _ => rfl, fun _ _ _ _ => rfl, ?_, ?_, by decide⟩
  · intro env txh bn
    simp only [decodeAttestationViem]
    rcases env.getTransaction txh with _ | ⟨toA, dataS⟩
    · rw [Option.map_none', Option.map_none']
    · rcases toA with _ | a
      · simp
      · dsimp only
        cases toLowerStr a == contractAddr env
        · simp
        · rw [if_neg (by decide)]
          cases decide (dataS = "") || decide (dataS = "0x")
          · rw [if_neg (by decide)]
            rcases env.parseTx dataS with _ | rc
            · rw [Option.map_none', Option.map_none']
            · exact hstageV env txh bn rc
          · simp
  · intro env txh bn
    simp only [decodeAttestationEthers]
    rcases env.getTransaction txh with _ | ⟨toA, dataS⟩
    · rw [Option.map_none', Option.map_none']
    · rcases toA with _ | a
      · simp
      · dsimp only
        cases toLowerStr a == contractAddr env
        · simp
        · rw [if_neg (by decide)]
          cases decide (dataS = "") || decide (dataS = "0x")
          · rw [if_neg (by decide)]
            rcases env.parseTx dataS with _ | rc
            · rw [Option.map_none', Option.map_none']
            · exact hstageE env txh bn rc
          · simp

set_option maxRecDepth 1000000 in
/-- C3: A malformed `attestationData` byte string (schema mismatch — concretely
exhibited by a tail truncated shorter than its length prefix declares, rejected
by both variants) makes the Payload Decoder return the `null` failure, upon
which the pipeline produces no record at all for that transaction, and the
batch loop's output for the remaining transactions is exactly what it would be
had the malformed transaction not been there — processing continues rather
than terminating the run. -/
theorem malformedPayload_dropped :
    (decodeAttestationDataEthers truncatedTailHex = none ∧
      decodeAttestationDataViem truncatedTailHex = none) ∧
    (∀ (env : Env) (txHash dataS : String) (bn : Nat) (toA : Option String)
        (rc : RawCall),
      env.getTransaction txHash = some { toAddr := toA, data := dataS } →
      env.parseTx dataS = some rc →
      decodeAttestationDataEthers rc.attestationData = none →
      (decodeAttestationEthers env txHash bn).1 = none) ∧
    (∀ (env : Env) (txHash dataS : String) (bn : Nat) (toA : Option String)
        (rc : RawCall),
      env.getTransaction txHash = some { toAddr := toA, data := dataS } →
      env.parseTx dataS = some rc →
      decodeAttestationDataViem rc.attestationData = none →
      (decodeAttestationViem env txHash bn).1 = none) ∧
    (∀ (env : Env) (m : String) (pre post : List ExplorerTx) (t : ExplorerTx),
      (decodeAttestationEthers env t.hash t.blockNumber).1 = none →
      (fetchTransactionsFromExplorerEthers env
          { status := "1", message := m, result := pre ++ t :: post }).1 =
        (fetchTransactionsFromExplorerEthers env
          { status := "1", message := m, result := pre ++ post }).1) ∧
    (∀ (env : Env) (m : String) (pre post : List ExplorerTx) (t : ExplorerTx),
      (decodeAttestationViem env t.hash t.blockNumber).1 = none →
      (fetchTransactionsFromExplorerViem env
          { status := "1", message := m, result := pre ++ t :: post }).1 =
        (fetchTransactionsFromExplorerViem env
          { status := "1", message := m, result := pre ++ post }).1) := by
  refine ⟨⟨rfl, rfl⟩, ?_, ?_, ?_, ?_⟩
  · intro env txh dataS bn toA rc hget hparse hdec
    simp only [decodeAttestationEthers, hget]
    rcases toA with _ | a
    · rfl
    · dsimp only
      cases toLowerStr a == contractAddr env
      · rfl
      · rw [if_neg (by decide)]
        cases decide (dataS = "") || decide (dataS = "0x")
        · rw [if_neg (by decide), hparse]
          simp only [ethersPayloadStage, hdec]
        · rfl
  · intro env txh dataS bn toA rc hget hparse hdec
    simp only [decodeAttestationViem, hget]
    rcases toA with _ | a
    · rfl
    · dsimp only
      cases toLowerStr a == contractAddr env
      · rfl
      · rw [if_neg (by decide)]
        cases decide (dataS = "") || decide (dataS = "0x")
        · rw [if_neg (by decide), hparse]
          simp only [viemPayloadStage, hdec]
        · rfl
  · intro env m pre post t hnone
    simp only [fetchTransactionsFromExplorerEthers]
    rw [if_neg (by decide), if_neg (by decide)]
    dsimp only
    by_cases hc : (toLowerStr t.toAddr == contractAddr env) = true
    · simp [List.filter_append, List.filter_cons, List.filterMap_append,
        List.filterMap_cons, hc, hnone]
    · simp [List.filter_append, List.filter_cons, List.filterMap_append, hc]
  · intro env m pre post t hnone
    simp only [fetchTransactionsFromExplorerViem]
    rw [if_neg (by decide), if_neg (by decide)]
    dsimp only
    by_cases hc : (toLowerStr t.toAddr == contractAddr env) = true
    · simp [List.filter_append, List.filter_cons, List.filterMap_append,
        List.filterMap_cons, hc, hnone]
    · simp [List.filter_append, List.filter_cons, List.filterMap_append, hc]

/-- The call returned by the C3 witness environment: its `attestationData` is
the truncated-tail payload. -/
def witRcTrunc : RawCall :=
  { schemaId := "0x01", expirationDate := 0, subject := "0xsubj",
    attestationData := truncatedTailHex, validationPayloads := [] }

/-- The C3 witness transaction: addressed to the contract, with decodable call
data. -/
def witTxAttest : TxData := { toAddr := some "0xAA", data := "0xfeed" }

/-- C3 witness environment: one known transaction whose call decodes to the
truncated-tail payload. -/
def witEnvTrunc : Env :=
  { contractAddressRaw := "0xAA",
    getTransaction := fun h => if h = "0xh1" then some witTxAttest else none,
    parseTx := fun d => if d = "0xfeed" then some witRcTrunc else none,
    getBlockTimestamp := fun _ => 0, nowMs := 0 }

/-- C3 witness: for the concrete transaction carrying the truncated-tail
payload, both pipelines produce no record, and dropping it from a concrete
batch leaves the batch output unchanged. -/
theorem malformedPayload_dropped_witness :
    (decodeAttestationEthers witEnvTrunc "0xh1" 3).1 = none ∧
    (decodeAttestationViem witEnvTrunc "0xh1" 3).1 = none ∧
    (fetchTransactionsFromExplorerEthers witEnvTrunc
        { status := "1", message := "OK",
          result := [{ hash := "0xh0", toAddr := "0xBB", blockNumber := 1 },
            { hash := "0xh1", toAddr := "0xAA", blockNumber := 3 },
            { hash := "0xh2", toAddr := "0xBB", blockNumber := 4 }] }).1 =
      (fetchTransactionsFromExplorerEthers witEnvTrunc
        { status := "1", message := "OK",
          result := [{ hash := "0xh0", toAddr := "0xBB", blockNumber := 1 },
            { hash := "0xh2", toAddr := "0xBB", blockNumber := 4 }] }).1 ∧
    (fetchTransactionsFromExplorerViem witEnvTrunc
        { status := "1", message := "OK",
          result := [{ hash := "0xh0", toAddr := "0xBB", blockNumber := 1 },
            { hash := "0xh1", toAddr := "0xAA", blockNumber := 3 },
            { hash := "0xh2", toAddr := "0xBB", blockNumber := 4 }] }).1 =
      (fetchTransactionsFromExplorerViem witEnvTrunc
        { status := "1", message := "OK",
          result := [{ hash := "0xh0", toAddr := "0xBB", blockNumber := 1 },
            { hash := "0xh2", toAddr := "0xBB", blockNumber := 4 }] }).1 :=
  ⟨malformedPayload_dropped.2.1 witEnvTrunc "0xh1" "0xfeed" 3 (some "0xAA")
      witRcTrunc rfl rfl malformedPayload_dropped.1.1,
   malformedPayload_dropped.2.2.1 witEnvTrunc "0xh1" "0xfeed" 3 (some "0xAA")
      witRcTrunc rfl rfl malformedPayload_dropped.1.2,
   malformedPayload_dropped.2.2.2.1 witEnvTrunc "OK"
      [{ hash := "0xh0", toAddr := "0xBB", blockNumber := 1 }]
      [{ hash := "0xh2", toAddr := "0xBB", blockNumber := 4 }]
      { hash := "0xh1", toAddr := "0xAA", blockNumber := 3 }
      (malformedPayload_dropped.2.1 witEnvTrunc "0xh1" "0xfeed" 3 (some "0xAA")
        witRcTrunc rfl rfl malformedPayload_dropped.1.1),
   malformedPayload_dropped.2.2.2.2 witEnvTrunc "OK"
      [{ hash := "0xh0", toAddr := "0xBB", blockNumber := 1 }]
      [{ hash := "0xh2", toAddr := "0xBB", blockNumber := 4 }]
      { hash := "0xh1", toAddr := "0xAA", blockNumber := 3 }
      (malformedPayload_dropped.2.2.1 witEnvTrunc "0xh1" "0xfeed" 3 (some "0xAA")
        witRcTrunc rfl rfl malformedPayload_dropped.1.2)⟩

/-! ## Sink lemmas -/

/-- A string free of newline characters (a value that stays within one CSV
row). -/
def noNewline (s : String) : Prop := '\n' ∉ s.data

instance (s : String) : Decidable (noNewline s) :=
  inferInstanceAs (Decidable ('\n' ∉ s.data))

/-- Characters produced by the decimal accumulator are digits or come from the
seed accumulator. -/
theorem natToStrAux_chars : ∀ (fuel n : Nat) (acc : List Char), ∀ c ∈ natToStrAux fuel n acc,
    c ∈ acc ∨ ∃ k, k < 10 ∧ c = Char.ofNat (48 + k) := by
  intro fuel
  induction fuel with
  | zero => intro n acc c hc; exact Or.inl hc
  | succ fuel ih =>
    intro n acc c hc
    rw [natToStrAux] at hc
    by_cases hn : n = 0
    · rw [if_pos hn] at hc; exact Or.inl hc
    · rw [if_neg hn] at hc
      rcases ih (n / 10) _ c hc with h | h
      · rcases List.mem_cons.mp h with h1 | h1
        · exact Or.inr ⟨n % 10, Nat.mod_lt _ (by omega), h1⟩
        · exact Or.inl h1
      · exact Or.inr h

/-- Decimal renderings contain no newline. -/
theorem natToStr_noNewline (n : Nat) : noNewline (natToStr n) := by
  rw [natToStr]
  by_cases hn : n = 0
  · rw [if_pos hn]; show '\n' ∉ "0".data; decide
  · rw [if_neg hn]
    intro hmem
    rcases natToStrAux_chars n n [] _ hmem with h | ⟨k, hk, h⟩
    · cases h
    · interval_cases k <;> exact absurd h (by decide)

/-- Row counting distributes over string concatenation. -/
theorem countRows_append (s t : String) :
    countRows (s ++ t) = countRows s + countRows t := by
  simp [countRows, strData_append, List.count_append]

/-- A newline-free string has no rows. -/
theorem countRows_noNewline (s : String) (h : noNewline s) : countRows s = 0 :=
  List.count_eq_zero.mpr h

/-- The stringified booleans have no rows. -/
theorem countRows_boolStr (b : Bool) :
    countRows (if b then "true" else "false") = 0 := by cases b <;> rfl

/-- The viem variant's record fields that enter its CSV line, newline-free. -/
def fieldsOneRowViem (a : AttestationS) : Prop :=
  noNewline a.txHash ∧ noNewline a.schemaId ∧ noNewline a.subject ∧
    noNewline a.articlePage ∧ noNewline a.submitter ∧ noNewline a.timestamp

/-- The ethers variant's record fields that enter its CSV line, newline-free. -/
def fieldsOneRowEthers (a : AttestationP) : Prop :=
  noNewline a.txHash ∧ noNewline a.fromAddr ∧ noNewline a.timestamp ∧
    noNewline a.articlePage

instance (a : AttestationS) : Decidable (fieldsOneRowViem a) :=
  inferInstanceAs (Decidable (noNewline a.txHash ∧ noNewline a.schemaId ∧
    noNewline a.subject ∧ noNewline a.articlePage ∧ noNewline a.submitter ∧
    noNewline a.timestamp))

instance (a : AttestationP) : Decidable (fieldsOneRowEthers a) :=
  inferInstanceAs (Decidable (noNewline a.txHash ∧ noNewline a.fromAddr ∧
    noNewline a.timestamp ∧ noNewline a.articlePage))

/-- A record with newline-free fields renders to exactly one CSV row. -/
theorem csvLineViem_oneRow (a : AttestationS) (h : fieldsOneRowViem a) :
    countRows (csvLineViem a) = 1 := by
  obtain ⟨h1, h2, h3, h4, h5, h6⟩ := h
  rw [csvLineViem]
  rw [countRows_append, countRows_append, countRows_append, countRows_append,
    countRows_append, countRows_append, countRows_append, countRows_append,
    countRows_append, countRows_append, countRows_append, countRows_append,
    countRows_append, countRows_append, countRows_append]
  rw [countRows_noNewline _ h1, countRows_noNewline _ h2, countRows_noNewline _ h3,
    countRows_noNewline _ h4, countRows_noNewline _ h5, countRows_noNewline _ h6,
    countRows_noNewline _ (natToStr_noNewline _), countRows_boolStr]
  rfl

/-- A record with newline-free fields renders to exactly one CSV row (ethers
variant). -/
theorem csvLineEthers_oneRow (a : AttestationP) (h : fieldsOneRowEthers a) :
    countRows (csvLineEthers a) = 1 := by
  obtain ⟨h1, h2, h3, h4⟩ := h
  rw [csvLineEthers]
  rw [countRows_append, countRows_append, countRows_append, countRows_append,
    countRows_append, countRows_append, countRows_append, countRows_append,
    countRows_append, countRows_append, countRows_append, countRows_append,
    countRows_append]
  rw [countRows_noNewline _ h1, countRows_noNewline _ h2, countRows_noNewline _ h3,
    countRows_noNewline _ h4,
    countRows_noNewline _ (natToStr_noNewline _), countRows_noNewline _ (natToStr_noNewline _),
    countRows_noNewline _ (natToStr_noNewline _)]
  rfl

/-- Folding the persist step adds one CSV row and one JSON entry per record
(viem variant). -/
theorem persistViem_foldl_counts :
    ∀ (recs : List AttestationS) (st : SinkState),
      (∀ a ∈ recs, fieldsOneRowViem a) →
      countRows ((recs.foldl persistViem st).csvContent) =
        countRows st.csvContent + recs.length ∧
      ((recs.foldl persistViem st).jsonChunks).length =
        st.jsonChunks.length + recs.length := by
  intro recs
  induction recs with
  | nil => intro st _; exact ⟨rfl, rfl⟩
  | cons a rest ih =>
    intro st h
    rw [List.foldl_cons]
    obtain ⟨hc, hj⟩ := ih (persistViem st a)
      (fun x hx => h x (List.mem_cons_of_mem _ hx))
    constructor
    · rw [hc]
      have hstep : countRows ((persistViem st a).csvContent) =
          countRows st.csvContent + 1 := by
        show countRows (st.csvContent ++ csvLineViem a) = _
        rw [countRows_append, csvLineViem_oneRow a (h a (List.mem_cons_self a rest))]
      rw [hstep, List.length_cons]; omega
    · rw [hj]
      have hstep : ((persistViem st a).jsonChunks).length =
          st.jsonChunks.length + 1 := by
        show (st.jsonChunks ++ [jsonStringifyViem a ++ "\n"]).length = _
        simp
      rw [hstep, List.length_cons]; omega

/-- Folding the persist step adds one CSV row and one JSON entry per record
(ethers variant). -/
theorem persistEthers_foldl_counts :
    ∀ (recs : List AttestationP) (st : SinkState),
      (∀ a ∈ recs, fieldsOneRowEthers a) →
      countRows ((recs.foldl persistEthers st).csvContent) =
        countRows st.csvContent + recs.length ∧
      ((recs.foldl persistEthers st).jsonChunks).length =
        st.jsonChunks.length + recs.length := by
  intro recs
  induction recs with
  | nil => intro st _; exact ⟨rfl, rfl⟩
  | cons a rest ih =>
    intro st h
    rw [List.foldl_cons]
    obtain ⟨hc, hj⟩ := ih (persistEthers st a)
      (fun x hx => h x (List.mem_cons_of_mem _ hx))
    constructor
    · rw [hc]
      have hstep : countRows ((persistEthers st a).csvContent) =
          countRows st.csvContent + 1 := by
        show countRows (st.csvContent ++ csvLineEthers a) = _
        rw [countRows_append, csvLineEthers_oneRow a (h a (List.mem_cons_self a rest))]
      rw [hstep, List.length_cons]; omega
    · rw [hj]
      have hstep : ((persistEthers st a).jsonChunks).length =
          st.jsonChunks.length + 1 := by
        show (st.jsonChunks ++ [jsonStringifyEthers a ++ "\n"]).length = _
        simp
      rw [hstep, List.length_cons]; omega

/-- C5: Initializing the Sink and appending N valid records (records whose
rendered fields contain no newline) yields a CSV artifact with exactly N data
rows plus one header row and a JSON artifact with exactly N entries, in both
variants, whatever the files held before. -/
theorem sink_append_counts (prevV prevP : SinkState)
    (recsV : List AttestationS) (recsP : List AttestationP)
    (hV : ∀ a ∈ recsV, fieldsOneRowViem a)
    (hP : ∀ a ∈ recsP, fieldsOneRowEthers a) :
    countRows (startupViem prevV recsV).csvContent = recsV.length + 1 ∧
    ((startupViem prevV recsV).jsonChunks).length = recsV.length ∧
    countRows (startupEthers prevP recsP).csvContent = recsP.length + 1 ∧
    ((startupEthers prevP recsP).jsonChunks).length = recsP.length := by
  obtain ⟨hcV, hjV⟩ := persistViem_foldl_counts recsV (initializeFilesViem prevV) hV
  obtain ⟨hcP, hjP⟩ := persistEthers_foldl_counts recsP (initializeFilesEthers prevP) hP
  refine ⟨?_, ?_, ?_, ?_⟩
  · rw [startupViem, hcV]
    have : countRows ((initializeFilesViem prevV).csvContent) = 1 := rfl
    rw [this]; omega
  · rw [startupViem, hjV]; simp [initializeFilesViem]
  · rw [startupEthers, hcP]
    have : countRows ((initializeFilesEthers prevP).csvContent) = 1 := rfl
    rw [this]; omega
  · rw [startupEthers, hjP]; simp [initializeFilesEthers]

/-- C5 witness: two concrete records appended after re-initialization over
dirty prior file contents give 2 data rows plus the header and 2 JSON
entries. -/
theorem sink_append_counts_witness :
    countRows (startupViem { jsonChunks := ["old"], csvContent := "junk" }
        [{ txHash := "0xt1", blockNumber := 1, schemaId := "0xs", subject := "0xa",
           isPositive := true, articlePage := "p1", submitter := "0xu",
           timestamp := "1970-01-01T00:00:00.000Z" },
         { txHash := "0xt2", blockNumber := 2, schemaId := "0xs", subject := "0xa",
           isPositive := false, articlePage := "p2", submitter := "0xu",
           timestamp := "1970-01-01T00:00:01.000Z" }]).csvContent = 2 + 1 ∧
    (startupViem { jsonChunks := ["old"], csvContent := "junk" }
        [{ txHash := "0xt1", blockNumber := 1, schemaId := "0xs", subject := "0xa",
           isPositive := true, articlePage := "p1", submitter := "0xu",
           timestamp := "1970-01-01T00:00:00.000Z" },
         { txHash := "0xt2", blockNumber := 2, schemaId := "0xs", subject := "0xa",
           isPositive := false, articlePage := "p2", submitter := "0xu",
           timestamp := "1970-01-01T00:00:01.000Z" }]).jsonChunks.length = 2 ∧
    countRows (startupEthers { jsonChunks := ["old"], csvContent := "junk" }
        [{ txHash := "0xt1", blockNumber := 1, fromAddr := "0xu",
           timestamp := "1970-01-01T00:00:00.000Z", articlePage := "p1",
           positiveFeedback := 1, negativeFeedback := 0 }]).csvContent = 1 + 1 ∧
    (startupEthers { jsonChunks := ["old"], csvContent := "junk" }
        [{ txHash := "0xt1", blockNumber := 1, fromAddr := "0xu",
           timestamp := "1970-01-01T00:00:00.000Z", articlePage := "p1",
           positiveFeedback := 1, negativeFeedback := 0 }]).jsonChunks.length = 1 :=
  sink_append_counts _ _ _ _ (by decide) (by decide)

/-- Folding the persist step only ever appends to the CSV content (viem). -/
theorem persistViem_foldl_csvPrefix :
    ∀ (recs : List AttestationS) (st : SinkState),
      st.csvContent.data <+: ((recs.foldl persistViem st).csvContent).data := by
  intro recs
  induction recs with
  | nil => intro st; exact List.prefix_refl _
  | cons a rest ih =>
    intro st
    rw [List.foldl_cons]
    refine List.IsPrefix.trans ?_ (ih (persistViem st a))
    show st.csvContent.data <+: (st.csvContent ++ csvLineViem a).data
    rw [strData_append]
    exact List.prefix_append _ _

/-- Folding the persist step only ever appends to the CSV content (ethers). -/
theorem persistEthers_foldl_csvPrefix :
    ∀ (recs : List AttestationP) (st : SinkState),
      st.csvContent.data <+: ((recs.foldl persistEthers st).csvContent).data := by
  intro recs
  induction recs with
  | nil => intro st; exact List.prefix_refl _
  | cons a rest ih =>
    intro st
    rw [List.foldl_cons]
    refine List.IsPrefix.trans ?_ (ih (persistEthers st a))
    show st.csvContent.data <+: (st.csvContent ++ csvLineEthers a).data
    rw [strData_append]
    exact List.prefix_append _ _

/-- C8: Sink initialization at process start discards any prior contents of
both artifacts — afterwards the JSON artifact is empty and the CSV artifact is
exactly the one header row — the whole startup result is independent of the
prior contents, each subsequent persist step is a pure append of one JSON
entry and one CSV line (no update or deletion), and consequently the header
stays a prefix of the final CSV artifact and initialization precedes every
append. -/
theorem sink_init_discards_append_only :
    (∀ prev : SinkState,
      initializeFilesViem prev = { jsonChunks := [], csvContent := csvHeaderViem } ∧
      initializeFilesEthers prev = { jsonChunks := [], csvContent := csvHeaderEthers }) ∧
    countRows csvHeaderViem = 1 ∧ countRows csvHeaderEthers = 1 ∧
    (∀ (st : SinkState) (a : AttestationS),
      (persistViem st a).jsonChunks = st.jsonChunks ++ [jsonStringifyViem a ++ "\n"] ∧
      (persistViem st a).csvContent = st.csvContent ++ csvLineViem a) ∧
    (∀ (st : SinkState) (a : AttestationP),
      (persistEthers st a).jsonChunks = st.jsonChunks ++ [jsonStringifyEthers a ++ "\n"] ∧
      (persistEthers st a).csvContent = st.csvContent ++ csvLineEthers a) ∧
    (∀ (prev prev2 : SinkState) (recs : List AttestationS),
      startupViem prev recs = startupViem prev2 recs) ∧
    (∀ (prev prev2 : SinkState) (recs : List AttestationP),
      startupEthers prev recs = startupEthers prev2 recs) ∧
    (∀ (prev : SinkState) (recs : List AttestationS),
      csvHeaderViem.data <+: (startupViem prev recs).csvContent.data) ∧
    (∀ (prev : SinkState) (recs : List AttestationP),
      csvHeaderEthers.data <+: (startupEthers prev recs).csvContent.data) := by
  refine ⟨fun _ => ⟨rfl, rfl⟩, rfl, rfl, fun st a => ⟨rfl, rfl⟩, fun st a => ⟨rfl, rfl⟩,
    fun _ _ _ => rfl, fun _ _ _ => rfl, ?_, ?_⟩
  · intro prev recs
    exact persistViem_foldl_csvPrefix recs (initializeFilesViem prev)
  · intro prev recs
    exact persistEthers_foldl_csvPrefix recs (initializeFilesEthers prev)

end AttScan

